import Mathlib

/-!
Verification development for a two-process vehicle-counting system.

The counting process (backend.py) reads tracked detections per frame from an
external detector, counts each track at most once when its truncated vertical
center lies strictly inside a band around a counting line, and persists each
count event first to a CSV log (append + flush) and then to a relational
table (insert + commit).  The web process (app.py) serves aggregation queries
over the relational table.

Embedding conventions:
- pixel coordinates and confidences are rationals (the source uses machine
  floats; all constants involved are exactly representable);
- the Python builtin int() is truncation toward zero (pyInt below);
- wall-clock timestamps are abstracted to a calendar day index (days since a
  Monday epoch, so weekday = day mod 7, and day-string comparison in SQL
  corresponds to the numeric order) together with an hour of day; queries
  never look below the hour;
- track identifiers are integers, as the external tracker guarantees;
- side effects on the two persistence sinks are recorded as an explicit
  trace of sink operations in program order;
- SQL GROUP BY is modelled as one (key, count) pair per distinct key of the
  filtered rows, in first-occurrence order; every property proved about the
  grouped queries is independent of that order.
-/

/-- Truncation toward zero, the semantics of the Python builtin int() on a
real number. -/
def pyInt (q : ℚ) : Int := if 0 ≤ q then ⌊q⌋ else ⌈q⌉

/-- Wall-clock instant, at the granularity the queries inspect: a calendar
day index (days since a Monday epoch) and an hour of day. -/
structure Timestamp where
  day : Nat
  hour : Fin 24
deriving DecidableEq

/-- One tracked detection handed to the counting loop for one frame:
persistent track identity, class label (model.names applied to the class
index by the external model), confidence, and bounding box x1,y1,x2,y2. -/
structure Detection where
  box_id : Int
  label : String
  conf : ℚ
  x1 : ℚ
  y1 : ℚ
  x2 : ℚ
  y2 : ℚ
deriving DecidableEq

/-- A count event, which is also exactly the field set written to the CSV
log and inserted into the vehicles table. -/
structure CountEvent where
  timestamp : Timestamp
  vehicle_type : String
  vehicle_id : Int
  location_id : String
deriving DecidableEq

/-- One side effect on the two persistence sinks. -/
inductive SinkOp where
  | csvAppend (row : CountEvent)
  | csvFlush
  | dbInsert (row : CountEvent)
  | dbCommit
deriving DecidableEq

/-- Mutable state of the counting process. -/
structure CounterState where
  frame_count : Nat
  counted_ids : Finset Int
  count_cars : Nat
  count_bikes : Nat
  count_trucks : Nat
  camera_location : String
deriving DecidableEq

/-- Outcome of a processing step: successor state, emitted events, and the
sink operations performed, in program order. -/
structure StepOut where
  state : CounterState
  events : List CountEvent
  ops : List SinkOp
deriving DecidableEq

def DEFAULT_CAMERA_LOCATION_ID : String := "jodhpur"

def count_line_position : Int := 270

def offset : Int := 20

/-- What one read of the shared location file can yield: the file is absent,
the read raises, or it returns some text. -/
inductive LocFile where
  | missing
  | readError
  | content (s : String)
deriving DecidableEq

/-- The python str.strip with no argument: drop whitespace from both ends. -/
def pyStrip (s : String) : String :=
  String.mk ((((s.data.dropWhile Char.isWhitespace).reverse.dropWhile
    Char.isWhitespace).reverse))

/-- read_current_location of backend.py: on a missing file or a read error
the previous value is kept; text is stripped and adopted only if nonempty
(the inequality test only gates the transition message, the adopted value is
the same either way); afterwards an empty value is replaced by the default. -/
def read_current_location (prev : String) (f : LocFile) : String :=
  let afterTry :=
    match f with
    | .missing => prev
    | .readError => prev
    | .content s =>
      let new_location := pyStrip s
      if new_location ≠ "" ∧ new_location ≠ prev then new_location else prev
  if afterTry = "" then DEFAULT_CAMERA_LOCATION_ID else afterTry

/-- The class labels the counter accepts, as listed in backend.py. -/
def countedLabels : List String := ["car", "motorcycle", "truck"]

/-- center_y of backend.py: int of the midpoint of y1 and y2. -/
def centerY (d : Detection) : Int := pyInt ((d.y1 + d.y2) / 2)

/-- Tally counters by label, the if and elif chain at the end of the
counting branch.  It never touches counted_ids. -/
def bumpCounts (label : String) (st : CounterState) : CounterState :=
  if label = "car" then { st with count_cars := st.count_cars + 1 }
  else if label = "motorcycle" then { st with count_bikes := st.count_bikes + 1 }
  else if label = "truck" then { st with count_trucks := st.count_trucks + 1 }
  else st

/-- The body of the per-detection loop of backend.py, lines 125 to 157.
The detection is paired with the clock value the loop would read for it.
The counting line and the band half-width are the module constants
count_line_position and offset, kept as parameters. -/
def processDetection (line off : Int) (st : CounterState) (p : Detection × Timestamp) :
    StepOut :=
  let d := p.1
  let center_y := centerY d
  if d.label ∈ countedLabels ∧ d.conf > 1/2 then
    if line - off < center_y ∧ center_y < line + off ∧ d.box_id ∉ st.counted_ids then
      let st1 := { st with counted_ids := insert d.box_id st.counted_ids }
      let ev : CountEvent :=
        { timestamp := p.2
          vehicle_type := d.label
          vehicle_id := d.box_id
          location_id := st.camera_location }
      let ops := [SinkOp.csvAppend ev, SinkOp.csvFlush, SinkOp.dbInsert ev, SinkOp.dbCommit]
      ⟨bumpCounts d.label st1, [ev], ops⟩
    else ⟨st, [], []⟩
  else ⟨st, [], []⟩

/-- The per-frame loop over the tracked detections of one frame. -/
def processDets (line off : Int) (st : CounterState) :
    List (Detection × Timestamp) → StepOut
  | [] => ⟨st, [], []⟩
  | p :: rest =>
    let o1 := processDetection line off st p
    let o2 := processDets line off o1.state rest
    ⟨o2.state, o1.events ++ o2.events, o1.ops ++ o2.ops⟩

/-- External input of one iteration of the main loop: whether the 5 second
poll interval has elapsed (and if so what the location file read yields),
and whether the frame grab succeeded (and if so which tracked detections the
detector returns; a frame whose tracker output has no ids is the empty
list). -/
structure LoopIter where
  poll : Option LocFile
  grab : Option (List (Detection × Timestamp))

/-- One iteration of the main while loop of backend.py: optional location
poll, frame grab (a failed grab retries via continue), frame counting with
every odd-numbered frame skipped, then the per-detection loop. -/
def stepIter (line off : Int) (st : CounterState) (it : LoopIter) : StepOut :=
  let loc1 :=
    match it.poll with
    | some f => read_current_location st.camera_location f
    | none => st.camera_location
  let st1 := { st with camera_location := loc1 }
  match it.grab with
  | none => ⟨st1, [], []⟩
  | some dets =>
    let st2 := { st1 with frame_count := st1.frame_count + 1 }
    if st2.frame_count % 2 ≠ 0 then ⟨st2, [], []⟩
    else processDets line off st2 dets

/-- The main loop, run over a finite sequence of iteration inputs. -/
def runLoop (line off : Int) (st : CounterState) : List LoopIter → StepOut
  | [] => ⟨st, [], []⟩
  | it :: rest =>
    let o1 := stepIter line off st it
    let o2 := runLoop line off o1.state rest
    ⟨o2.state, o1.events ++ o2.events, o1.ops ++ o2.ops⟩

/-- Process-start state of backend.py: zero counters, empty counted set, and
the camera location resolved by the initial read_current_location call. -/
def startState (f0 : LocFile) : CounterState :=
  { frame_count := 0
    counted_ids := ∅
    count_cars := 0
    count_bikes := 0
    count_trucks := 0
    camera_location := read_current_location DEFAULT_CAMERA_LOCATION_ID f0 }

/-- The sink operations the loop performs for one emitted event, in program
order: CSV append, CSV flush, table insert, commit. -/
def eventOps (e : CountEvent) : List SinkOp :=
  [SinkOp.csvAppend e, SinkOp.csvFlush, SinkOp.dbInsert e, SinkOp.dbCommit]

/-- Deduplication contract of a processing step starting from state st: the
counted set only grows, a track already counted yields no event and a fresh
track at most one, and any track that did yield an event is in the final
counted set. -/
def DedupOK (st : CounterState) (o : StepOut) : Prop :=
  st.counted_ids ⊆ o.state.counted_ids ∧
  ∀ t : Int,
    (o.events.countP (fun e => decide (e.vehicle_id = t)) ≤
      if t ∈ st.counted_ids then 0 else 1) ∧
    (o.events.countP (fun e => decide (e.vehicle_id = t)) ≠ 0 →
      t ∈ o.state.counted_ids)

lemma bumpCounts_counted_ids (label : String) (st : CounterState) :
    (bumpCounts label st).counted_ids = st.counted_ids := by
  unfold bumpCounts
  split
  · rfl
  · split
    · rfl
    · split <;> rfl

lemma dedupOK_of_events_nil {st : CounterState} {o : StepOut}
    (hsub : st.counted_ids ⊆ o.state.counted_ids) (hev : o.events = []) :
    DedupOK st o := by
  refine ⟨hsub, fun t => ?_⟩
  simp [hev]

lemma dedupOK_congr_start {st st' : CounterState} {o : StepOut}
    (hc : st'.counted_ids = st.counted_ids) (h : DedupOK st' o) : DedupOK st o := by
  refine ⟨hc ▸ h.1, fun t => ?_⟩
  have := h.2 t
  rwa [hc] at this

lemma DedupOK.comp {st : CounterState} {o1 o2 : StepOut} (ops : List SinkOp)
    (h1 : DedupOK st o1) (h2 : DedupOK o1.state o2) :
    DedupOK st ⟨o2.state, o1.events ++ o2.events, ops⟩ := by
  refine ⟨h1.1.trans h2.1, fun t => ?_⟩
  obtain ⟨b1, m1⟩ := h1.2 t
  obtain ⟨b2, m2⟩ := h2.2 t
  constructor
  · rw [List.countP_append]
    by_cases hm : t ∈ st.counted_ids
    · have hm1 : t ∈ o1.state.counted_ids := h1.1 hm
      rw [if_pos hm] at b1 ⊢
      rw [if_pos hm1] at b2
      omega
    · rw [if_neg hm] at b1 ⊢
      by_cases hm1 : t ∈ o1.state.counted_ids
      · rw [if_pos hm1] at b2
        omega
      · rw [if_neg hm1] at b2
        rcases Nat.eq_zero_or_pos (o1.events.countP (fun e => decide (e.vehicle_id = t))) with
          h0 | hpos
        · omega
        · exact absurd (m1 (by omega)) hm1
  · rw [List.countP_append]
    intro hne
    rcases Nat.eq_zero_or_pos (o2.events.countP (fun e => decide (e.vehicle_id = t))) with
      h0 | hpos
    · exact h2.1 (m1 (by omega))
    · exact m2 (by omega)

lemma processDetection_dedupOK (line off : Int) (st : CounterState)
    (p : Detection × Timestamp) : DedupOK st (processDetection line off st p) := by
  unfold processDetection
  dsimp only
  split
  · split
    · rename_i hcond
      refine ⟨?_, fun t => ?_⟩
      · simp only [bumpCounts_counted_ids]
        exact Finset.subset_insert _ _
      · constructor
        · simp only [List.countP_cons, List.countP_nil, Nat.zero_add]
          by_cases ht : p.1.box_id = t
          · subst ht
            have : p.1.box_id ∉ st.counted_ids := hcond.2.2
            simp [this]
          · simp [ht]
        · intro hne
          simp only [List.countP_cons, List.countP_nil, Nat.zero_add] at hne
          by_cases ht : p.1.box_id = t
          · subst ht
            simp [bumpCounts_counted_ids]
          · simp [ht] at hne
    · exact dedupOK_of_events_nil (Finset.Subset.refl _) rfl
  · exact dedupOK_of_events_nil (Finset.Subset.refl _) rfl

lemma processDets_dedupOK (line off : Int) (st : CounterState)
    (l : List (Detection × Timestamp)) : DedupOK st (processDets line off st l) := by
  induction l generalizing st with
  | nil => exact dedupOK_of_events_nil (Finset.Subset.refl _) rfl
  | cons p rest ih =>
    exact DedupOK.comp _ (processDetection_dedupOK line off st p)
      (ih (processDetection line off st p).state)

lemma stepIter_dedupOK (line off : Int) (st : CounterState) (it : LoopIter) :
    DedupOK st (stepIter line off st it) := by
  unfold stepIter
  dsimp only
  cases it.grab with
  | none => exact dedupOK_of_events_nil (Finset.Subset.refl _) rfl
  | some dets =>
    dsimp only
    split
    · exact dedupOK_of_events_nil (Finset.Subset.refl _) rfl
    · refine dedupOK_congr_start ?_ (processDets_dedupOK line off _ dets)
      rfl

lemma runLoop_dedupOK (line off : Int) (st : CounterState) (iters : List LoopIter) :
    DedupOK st (runLoop line off st iters) := by
  induction iters generalizing st with
  | nil => exact dedupOK_of_events_nil (Finset.Subset.refl _) rfl
  | cons it rest ih =>
    exact DedupOK.comp _ (stepIter_dedupOK line off st it)
      (ih (stepIter line off st it).state)

def cTs : Timestamp := ⟨0, 0⟩

def cStateCounted : CounterState :=
  { frame_count := 0
    counted_ids := {5}
    count_cars := 0
    count_bikes := 0
    count_trucks := 0
    camera_location := "jodhpur" }

def cDetDup : Detection := ⟨5, "car", 9/10, 0, 260, 10, 280⟩

/-- C1: across one process run, a track id produces at most one CountEvent:
the counted set only ever grows, and a detection whose track id is already
in counted_ids is rejected whatever its box, class, or confidence. -/
theorem claim_C1_dedup :
    (∀ (line off : Int) (f0 : LocFile) (iters : List LoopIter) (t : Int),
      (runLoop line off (startState f0) iters).events.countP
        (fun e => decide (e.vehicle_id = t)) ≤ 1) ∧
    (∀ (line off : Int) (st : CounterState) (iters : List LoopIter),
      st.counted_ids ⊆ (runLoop line off st iters).state.counted_ids) ∧
    (∀ (line off : Int) (st : CounterState) (p : Detection × Timestamp),
      p.1.box_id ∈ st.counted_ids → (processDetection line off st p).events = []) := by
  refine ⟨?_, ?_, ?_⟩
  · intro line off f0 iters t
    obtain ⟨hb, _⟩ := (runLoop_dedupOK line off (startState f0) iters).2 t
    have hni : t ∉ (startState f0).counted_ids := by simp [startState]
    rw [if_neg hni] at hb
    exact hb
  · intro line off st iters
    exact (runLoop_dedupOK line off st iters).1
  · intro line off st p hmem
    unfold processDetection
    dsimp only
    split
    · rw [if_neg (fun hcond => hcond.2.2 hmem)]
    · rfl

theorem claim_C1_dedup_witness :
    ((runLoop 270 20 (startState .missing) [⟨none, some []⟩]).events.countP
        (fun e => decide (e.vehicle_id = 5)) ≤ 1) ∧
    (processDetection 270 20 cStateCounted (cDetDup, cTs)).events = [] := by
  constructor
  · exact claim_C1_dedup.1 270 20 .missing [⟨none, some []⟩] 5
  · exact claim_C1_dedup.2.2 270 20 cStateCounted (cDetDup, cTs) (by simp [cStateCounted, cDetDup])

def cBus : Detection := ⟨7, "bus", 9/10, 0, 260, 10, 280⟩

def cLowConf : Detection := ⟨8, "car", 1/2, 0, 260, 10, 280⟩

/-- C2: a detection whose class label is outside the counted vocabulary, or
whose confidence is at most one half, never yields a CountEvent, whatever
its bounding box. -/
theorem claim_C2_filter :
    ∀ (line off : Int) (st : CounterState) (p : Detection × Timestamp),
    p.1.label ∉ countedLabels ∨ p.1.conf ≤ 1/2 →
    (processDetection line off st p).events = [] := by
  intro line off st p h
  unfold processDetection
  dsimp only
  have hn : ¬(p.1.label ∈ countedLabels ∧ p.1.conf > 1/2) := by
    rintro ⟨hlab, hconf⟩
    rcases h with h | h
    · exact h hlab
    · exact absurd hconf (not_lt.mpr h)
  rw [if_neg hn]

theorem claim_C2_filter_witness :
    (processDetection 270 20 (startState .missing) (cBus, cTs)).events = [] ∧
    (processDetection 270 20 (startState .missing) (cLowConf, cTs)).events = [] := by
  constructor
  · exact claim_C2_filter 270 20 _ _ (Or.inl (by simp [cBus, countedLabels]))
  · exact claim_C2_filter 270 20 _ _ (Or.inr (by simp [cLowConf]))

def c3High : Detection := ⟨31, "car", 9/10, 0, 290, 10, 290⟩

def c3Low : Detection := ⟨32, "car", 9/10, 0, 250, 10, 250⟩

def c3On : Detection := ⟨33, "car", 9/10, 0, 270, 10, 270⟩

/-- C3: the band test is strict on both sides: an otherwise acceptable
detection whose computed vertical center sits exactly at line plus offset or
line minus offset is not counted, while one sitting exactly on the line is
counted, for any positive offset. -/
theorem claim_C3_boundary :
    ∀ (line off : Int) (st : CounterState) (p : Detection × Timestamp),
    0 < off → p.1.label ∈ countedLabels → 1/2 < p.1.conf →
    p.1.box_id ∉ st.counted_ids →
    ((centerY p.1 = line + off → (processDetection line off st p).events = []) ∧
     (centerY p.1 = line - off → (processDetection line off st p).events = []) ∧
     (centerY p.1 = line → ∃ ev, (processDetection line off st p).events = [ev])) := by
  intro line off st p hoff hlab hconf hid
  unfold processDetection
  dsimp only
  rw [if_pos ⟨hlab, hconf⟩]
  refine ⟨?_, ?_, ?_⟩
  · intro hc
    have hn : ¬(line - off < centerY p.1 ∧ centerY p.1 < line + off ∧
        p.1.box_id ∉ st.counted_ids) := by
      rintro ⟨-, h2, -⟩
      rw [hc] at h2
      exact lt_irrefl _ h2
    rw [if_neg hn]
  · intro hc
    have hn : ¬(line - off < centerY p.1 ∧ centerY p.1 < line + off ∧
        p.1.box_id ∉ st.counted_ids) := by
      rintro ⟨h1, -, -⟩
      rw [hc] at h1
      exact lt_irrefl _ h1
    rw [if_neg hn]
  · intro hc
    rw [if_pos ⟨by rw [hc]; omega, by rw [hc]; omega, hid⟩]
    exact ⟨_, rfl⟩

theorem claim_C3_boundary_witness :
    (processDetection 270 20 (startState .missing) (c3High, cTs)).events = [] ∧
    (processDetection 270 20 (startState .missing) (c3Low, cTs)).events = [] ∧
    (∃ ev, (processDetection 270 20 (startState .missing) (c3On, cTs)).events = [ev]) := by
  refine ⟨?_, ?_, ?_⟩
  · exact (claim_C3_boundary 270 20 _ (c3High, cTs) (by norm_num)
      (by simp [c3High, countedLabels]) (by norm_num [c3High]) (by simp [startState])).1
      (by norm_num [centerY, pyInt, c3High])
  · exact (claim_C3_boundary 270 20 _ (c3Low, cTs) (by norm_num)
      (by simp [c3Low, countedLabels]) (by norm_num [c3Low]) (by simp [startState])).2.1
      (by norm_num [centerY, pyInt, c3Low])
  · exact (claim_C3_boundary 270 20 _ (c3On, cTs) (by norm_num)
      (by simp [c3On, countedLabels]) (by norm_num [c3On]) (by simp [startState])).2.2
      (by norm_num [centerY, pyInt, c3On])

lemma processDetection_ops_spec (line off : Int) (st : CounterState)
    (p : Detection × Timestamp) :
    (processDetection line off st p).ops =
      (processDetection line off st p).events.flatMap eventOps := by
  unfold processDetection
  dsimp only
  split
  · split
    · rfl
    · rfl
  · rfl

lemma processDetection_events_len (line off : Int) (st : CounterState)
    (p : Detection × Timestamp) :
    (processDetection line off st p).events.length ≤ 1 := by
  unfold processDetection
  dsimp only
  split
  · split
    · simp
    · simp
  · simp

lemma processDets_ops_spec (line off : Int) (st : CounterState)
    (l : List (Detection × Timestamp)) :
    (processDets line off st l).ops = (processDets line off st l).events.flatMap eventOps := by
  induction l generalizing st with
  | nil => rfl
  | cons p rest ih =>
    show (processDetection line off st p).ops ++
        (processDets line off (processDetection line off st p).state rest).ops =
      ((processDetection line off st p).events ++
        (processDets line off (processDetection line off st p).state rest).events).flatMap
        eventOps
    rw [List.flatMap_append, processDetection_ops_spec, ih]

lemma stepIter_ops_spec (line off : Int) (st : CounterState) (it : LoopIter) :
    (stepIter line off st it).ops = (stepIter line off st it).events.flatMap eventOps := by
  unfold stepIter
  dsimp only
  cases it.grab with
  | none => rfl
  | some dets =>
    dsimp only
    split
    · rfl
    · exact processDets_ops_spec line off _ dets

lemma runLoop_ops_spec (line off : Int) (st : CounterState) (iters : List LoopIter) :
    (runLoop line off st iters).ops = (runLoop line off st iters).events.flatMap eventOps := by
  induction iters generalizing st with
  | nil => rfl
  | cons it rest ih =>
    show (stepIter line off st it).ops ++
        (runLoop line off (stepIter line off st it).state rest).ops =
      ((stepIter line off st it).events ++
        (runLoop line off (stepIter line off st it).state rest).events).flatMap eventOps
    rw [List.flatMap_append, stepIter_ops_spec, ih]

/-- C4: every emitted event is persisted by exactly four sink operations in
program order, CSV append of its row, CSV flush, table insert of the same
row, commit, and the whole run trace is the concatenation of these blocks
in emission order, so both writes of an event complete before any later
detection is processed. -/
theorem claim_C4_sink_order :
    (∀ (line off : Int) (st : CounterState) (p : Detection × Timestamp),
      (processDetection line off st p).ops =
        (processDetection line off st p).events.flatMap eventOps ∧
      (processDetection line off st p).events.length ≤ 1) ∧
    (∀ (line off : Int) (st : CounterState) (iters : List LoopIter),
      (runLoop line off st iters).ops = (runLoop line off st iters).events.flatMap eventOps) := by
  constructor
  · intro line off st p
    exact ⟨processDetection_ops_spec line off st p, processDetection_events_len line off st p⟩
  · intro line off st iters
    exact runLoop_ops_spec line off st iters

/-- Variant of the per-detection body in which the relational insert can
raise.  The source wraps no part of the loop body in a handler, so a raised
insert propagates; the Boolean records that the run terminated with the
exception.  On the failing event the counted-set insertion and the CSV
append and flush have already happened, so they remain; the raising insert
and the never-reached commit and tally update do not. -/
def processDetectionE (dbFail : Bool) (line off : Int) (st : CounterState)
    (p : Detection × Timestamp) : StepOut × Bool :=
  let d := p.1
  let center_y := centerY d
  if d.label ∈ countedLabels ∧ d.conf > 1/2 then
    if line - off < center_y ∧ center_y < line + off ∧ d.box_id ∉ st.counted_ids then
      let st1 := { st with counted_ids := insert d.box_id st.counted_ids }
      let ev : CountEvent :=
        { timestamp := p.2
          vehicle_type := d.label
          vehicle_id := d.box_id
          location_id := st.camera_location }
      if dbFail then (⟨st1, [ev], [SinkOp.csvAppend ev, SinkOp.csvFlush]⟩, true)
      else (⟨bumpCounts d.label st1, [ev], eventOps ev⟩, false)
    else (⟨st, [], []⟩, false)
  else (⟨st, [], []⟩, false)

/-- Per-frame loop with a raising insert: an uncaught exception aborts the
iteration over the remaining detections. -/
def processDetsE (dbFail : Bool) (line off : Int) (st : CounterState) :
    List (Detection × Timestamp) → StepOut × Bool
  | [] => (⟨st, [], []⟩, false)
  | p :: rest =>
    let r1 := processDetectionE dbFail line off st p
    if r1.2 then r1
    else
      let r2 := processDetsE dbFail line off r1.1.state rest
      (⟨r2.1.state, r1.1.events ++ r2.1.events, r1.1.ops ++ r2.1.ops⟩, r2.2)

/-- One main-loop iteration with a raising insert. -/
def stepIterE (dbFail : Bool) (line off : Int) (st : CounterState) (it : LoopIter) :
    StepOut × Bool :=
  let loc1 :=
    match it.poll with
    | some f => read_current_location st.camera_location f
    | none => st.camera_location
  let st1 := { st with camera_location := loc1 }
  match it.grab with
  | none => (⟨st1, [], []⟩, false)
  | some dets =>
    let st2 := { st1 with frame_count := st1.frame_count + 1 }
    if st2.frame_count % 2 ≠ 0 then (⟨st2, [], []⟩, false)
    else processDetsE dbFail line off st2 dets

/-- Main loop with a raising insert: an uncaught exception ends the run. -/
def runLoopE (dbFail : Bool) (line off : Int) (st : CounterState) :
    List LoopIter → StepOut × Bool
  | [] => (⟨st, [], []⟩, false)
  | it :: rest =>
    let r1 := stepIterE dbFail line off st it
    if r1.2 then r1
    else
      let r2 := runLoopE dbFail line off r1.1.state rest
      (⟨r2.1.state, r1.1.events ++ r2.1.events, r1.1.ops ++ r2.1.ops⟩, r2.2)

def cDetA : Detection := ⟨41, "car", 9/10, 0, 260, 10, 280⟩

def cDetB : Detection := ⟨42, "truck", 9/10, 0, 260, 10, 280⟩

def cTs1 : Timestamp := ⟨0, 1⟩

def cexIters : List LoopIter :=
  [⟨none, some []⟩, ⟨none, some [(cDetA, cTs)]⟩, ⟨none, some []⟩,
    ⟨none, some [(cDetB, cTs1)]⟩]

/-- C5 counterexample: with the relational insert failing, the run that
counts track 41 on its second processed frame terminates with the uncaught
exception and never counts the acceptable track 42 of a later frame, though
the same run with a healthy store counts it; so a failed insert is fatal and
the counter does not continue. -/
theorem claim_C5_counterexample :
    ((runLoopE true 270 20 (startState .missing) cexIters).2 = true) ∧
    ((runLoopE true 270 20 (startState .missing) cexIters).1.events.countP
        (fun e => decide (e.vehicle_id = 42)) = 0) ∧
    ((runLoopE false 270 20 (startState .missing) cexIters).1.events.countP
        (fun e => decide (e.vehicle_id = 42)) = 1) := by
  norm_num [runLoopE, stepIterE, processDetsE, processDetectionE, cexIters, startState,
    read_current_location, DEFAULT_CAMERA_LOCATION_ID, countedLabels, centerY, pyInt,
    bumpCounts, eventOps, cDetA, cDetB, cTs, cTs1]

/-- C5 amended: when the CSV append of an emitted event succeeds and the
relational insert then fails, the exception is not caught: only the CSV
append and flush reach the sinks, the per-frame loop processes none of the
remaining detections, and the main loop processes none of the remaining
iterations. -/
theorem claim_C5_db_failure_fatal :
    ∀ (line off : Int) (st : CounterState) (p : Detection × Timestamp),
    (processDetection line off st p).events ≠ [] →
    ((processDetectionE true line off st p).2 = true ∧
     (∃ ev, (processDetectionE true line off st p).1.ops =
        [SinkOp.csvAppend ev, SinkOp.csvFlush]) ∧
     (∀ rest, (processDetsE true line off st (p :: rest)).1.events =
        (processDetectionE true line off st p).1.events) ∧
     (∀ (st0 : CounterState) (it : LoopIter) (iters : List LoopIter),
        (stepIterE true line off st0 it).2 = true →
        (runLoopE true line off st0 (it :: iters)).1.events =
          (stepIterE true line off st0 it).1.events)) := by
  intro line off st p hne
  unfold processDetection at hne
  dsimp only at hne
  by_cases h1 : p.1.label ∈ countedLabels ∧ p.1.conf > 1/2
  swap
  · rw [if_neg h1] at hne
    exact absurd rfl hne
  rw [if_pos h1] at hne
  by_cases h2 : line - off < centerY p.1 ∧ centerY p.1 < line + off ∧
      p.1.box_id ∉ st.counted_ids
  swap
  · rw [if_neg h2] at hne
    exact absurd rfl hne
  have hcr : (processDetectionE true line off st p).2 = true := by
    unfold processDetectionE
    dsimp only
    rw [if_pos h1, if_pos h2]
    rfl
  refine ⟨hcr, ?_, ?_, ?_⟩
  · unfold processDetectionE
    dsimp only
    rw [if_pos h1, if_pos h2]
    exact ⟨_, rfl⟩
  · intro rest
    simp [processDetsE, hcr]
  · intro st0 it iters hcrash
    simp [runLoopE, hcrash]

theorem claim_C5_db_failure_fatal_witness :
    (processDetectionE true 270 20 (startState .missing) (cDetA, cTs)).2 = true := by
  refine (claim_C5_db_failure_fatal 270 20 (startState .missing) (cDetA, cTs) ?_).1
  norm_num [processDetection, startState, read_current_location, DEFAULT_CAMERA_LOCATION_ID,
    countedLabels, centerY, pyInt, bumpCounts, cDetA, cTs]

/-- WHERE clause shared by the per-day queries of app.py: rows of the given
calendar day and location whose vehicle_type is not bus.  A row of the
vehicles table carries exactly the fields of a CountEvent (the autoincrement
id column takes part in no query). -/
def filteredRows (store : List CountEvent) (d : Nat) (loc : String) : List CountEvent :=
  store.filter (fun r => decide (r.timestamp.day = d) && decide (r.location_id = loc) &&
    decide (r.vehicle_type ≠ "bus"))

/-- SQL GROUP BY key with COUNT: one pair per distinct key of the rows, in
first-occurrence order (the order used by the engine is unspecified; nothing proved
below depends on it). -/
def sqlGroupBy {κ : Type} [DecidableEq κ] (key : CountEvent → κ) (rows : List CountEvent) :
    List (κ × Nat) :=
  ((rows.map key).dedup).map (fun k => (k, rows.countP (fun r => decide (key r = k))))

/-- The response dict of the vehicle-types endpoint, initialized to zero for
car, truck and motorcycle. -/
structure VehicleCounts where
  car : Nat
  truck : Nat
  motorcycle : Nat
deriving DecidableEq

/-- The python loop over the grouped result: set the count for a type only
when the dict has that key. -/
def applyTypeCount (vc : VehicleCounts) (p : String × Nat) : VehicleCounts :=
  if p.1 = "car" then { vc with car := p.2 }
  else if p.1 = "truck" then { vc with truck := p.2 }
  else if p.1 = "motorcycle" then { vc with motorcycle := p.2 }
  else vc

/-- vehicle_types_data of app.py, lines 124 to 144: group the filtered rows
by vehicle_type and write the counts over the zero-initialized dict. -/
def vehicle_types_data (store : List CountEvent) (today : Nat) (loc : String) :
    VehicleCounts :=
  (sqlGroupBy (fun r => r.vehicle_type) (filteredRows store today loc)).foldl
    applyTypeCount ⟨0, 0, 0⟩

lemma foldl_applyTypeCount (ks : List String) (cnt : String → Nat) (vc : VehicleCounts)
    (hnd : ks.Nodup) :
    (ks.map (fun k => (k, cnt k))).foldl applyTypeCount vc =
      ⟨if "car" ∈ ks then cnt "car" else vc.car,
       if "truck" ∈ ks then cnt "truck" else vc.truck,
       if "motorcycle" ∈ ks then cnt "motorcycle" else vc.motorcycle⟩ := by
  induction ks generalizing vc with
  | nil => simp
  | cons k ks ih =>
    obtain ⟨hk, hnd2⟩ := List.nodup_cons.mp hnd
    simp only [List.map_cons, List.foldl_cons]
    rw [ih _ hnd2]
    by_cases hc : k = "car"
    · subst hc
      simp [applyTypeCount, hk, List.mem_cons]
    · by_cases ht : k = "truck"
      · subst ht
        simp [applyTypeCount, hk, List.mem_cons]
      · by_cases hm : k = "motorcycle"
        · subst hm
          simp [applyTypeCount, hk, List.mem_cons]
        · simp [applyTypeCount, hc, ht, hm, List.mem_cons, Ne.symm hc, Ne.symm ht, Ne.symm hm]

lemma vehicle_types_data_eq (store : List CountEvent) (d : Nat) (loc : String) :
    vehicle_types_data store d loc =
      ⟨(filteredRows store d loc).countP (fun r => decide (r.vehicle_type = "car")),
       (filteredRows store d loc).countP (fun r => decide (r.vehicle_type = "truck")),
       (filteredRows store d loc).countP (fun r => decide (r.vehicle_type = "motorcycle"))⟩ := by
  unfold vehicle_types_data sqlGroupBy
  rw [foldl_applyTypeCount _ _ _ (List.nodup_dedup _)]
  have hzero : ∀ t : String,
      t ∉ ((filteredRows store d loc).map (fun r => r.vehicle_type)).dedup →
      (filteredRows store d loc).countP (fun r => decide (r.vehicle_type = t)) = 0 := by
    intro t htm
    rw [List.countP_eq_zero]
    intro r hr
    simp only [decide_eq_true_eq]
    intro he
    exact htm (by rw [List.mem_dedup]; exact List.mem_map.mpr ⟨r, hr, he⟩)
  congr 1
  · split
    · rfl
    · rw [hzero _ (by assumption)]
  · split
    · rfl
    · rw [hzero _ (by assumption)]
  · split
    · rfl
    · rw [hzero _ (by assumption)]

/-- C6: a store holding exactly the rows of a batch of CountEvents of one
location and one day reproduces, under vehicle_types_data for that location
and day, the exact per-type counts of the batch for car, truck and
motorcycle, with an explicit zero for an absent type. -/
theorem claim_C6_roundtrip :
    ∀ (events : List CountEvent) (d : Nat) (loc : String),
    (∀ e ∈ events, e.timestamp.day = d ∧ e.location_id = loc ∧
      e.vehicle_type ∈ countedLabels) →
    vehicle_types_data events d loc =
      ⟨events.countP (fun e => decide (e.vehicle_type = "car")),
       events.countP (fun e => decide (e.vehicle_type = "truck")),
       events.countP (fun e => decide (e.vehicle_type = "motorcycle"))⟩ := by
  intro events d loc h
  rw [vehicle_types_data_eq]
  have hfix : filteredRows events d loc = events := by
    apply List.filter_eq_self.mpr
    intro e he
    obtain ⟨h1, h2, h3⟩ := h e he
    have hb : e.vehicle_type ≠ "bus" := by
      intro hbus
      rw [hbus] at h3
      simp [countedLabels] at h3
    simp [h1, h2, hb]
  rw [hfix]

def cEvents : List CountEvent :=
  [⟨⟨3, 8⟩, "car", 1, "Kudi"⟩, ⟨⟨3, 8⟩, "car", 2, "Kudi"⟩, ⟨⟨3, 9⟩, "truck", 3, "Kudi"⟩]

theorem claim_C6_roundtrip_witness :
    vehicle_types_data cEvents 3 "Kudi" = ⟨2, 1, 0⟩ := by
  rw [claim_C6_roundtrip cEvents 3 "Kudi" (by decide)]
  decide

/-- The key format of the hourly dict, the python f-string 02d padding of
the hour followed by a colon and minutes. -/
def fmtHour (n : Nat) : String :=
  (if n < 10 then "0" ++ Nat.repr n else Nat.repr n) ++ ":00"

/-- The zero-filled 24-entry dict the hourly endpoint starts from, in key
insertion order. -/
def hourlyInit : List (String × Nat) :=
  (List.finRange 24).map (fun h => (fmtHour h.val, 0))

/-- Python dict assignment d[k] = v on a dict modelled as an association
list in key insertion order: overwrite if the key exists, append if not. -/
def dictSet (l : List (String × Nat)) (k : String) (v : Nat) : List (String × Nat) :=
  if l.any (fun p => decide (p.1 = k)) then
    l.map (fun p => if p.1 = k then (k, v) else p)
  else l ++ [(k, v)]

/-- hourly of app.py, lines 146 to 164: group the filtered rows of the
requested date and location by hour and assign each grouped count into the
zero-filled dict. -/
def hourly (store : List CountEvent) (date : Nat) (loc : String) : List (String × Nat) :=
  (sqlGroupBy (fun r => r.timestamp.hour) (filteredRows store date loc)).foldl
    (fun acc p => dictSet acc (fmtHour p.1.val) p.2) hourlyInit

lemma fmtHour_inj : ∀ a b : Fin 24, fmtHour a.val = fmtHour b.val → a = b := by decide

lemma dictSet_finmap (cur : Fin 24 → Nat) (h0 : Fin 24) (v : Nat) :
    dictSet ((List.finRange 24).map (fun h => (fmtHour h.val, cur h))) (fmtHour h0.val) v =
      (List.finRange 24).map (fun h => (fmtHour h.val, if h = h0 then v else cur h)) := by
  unfold dictSet
  have hany : (((List.finRange 24).map (fun h => (fmtHour h.val, cur h))).any
      (fun p => decide (p.1 = fmtHour h0.val))) = true := by
    rw [List.any_eq_true]
    exact ⟨(fmtHour h0.val, cur h0),
      List.mem_map.mpr ⟨h0, List.mem_finRange h0, rfl⟩, by simp⟩
  rw [if_pos hany, List.map_map]
  apply List.map_congr_left
  intro h _
  simp only [Function.comp_apply]
  by_cases he : h = h0
  · subst he
    simp
  · have hne : fmtHour h.val ≠ fmtHour h0.val := fun hcontra => he (fmtHour_inj h h0 hcontra)
    simp [hne, he]

lemma foldl_dictSet (ks : List (Fin 24)) (cnt cur : Fin 24 → Nat) :
    ((ks.map (fun k => (k, cnt k))).foldl
      (fun acc p => dictSet acc (fmtHour p.1.val) p.2)
      ((List.finRange 24).map (fun h => (fmtHour h.val, cur h)))) =
    (List.finRange 24).map (fun h => (fmtHour h.val, if h ∈ ks then cnt h else cur h)) := by
  induction ks generalizing cur with
  | nil => simp
  | cons k ks ih =>
    simp only [List.map_cons, List.foldl_cons]
    rw [dictSet_finmap cur k (cnt k), ih (fun h => if h = k then cnt k else cur h)]
    apply List.map_congr_left
    intro h _
    by_cases h1 : h ∈ ks
    · simp [h1, List.mem_cons]
    · by_cases h2 : h = k
      · subst h2
        simp [h1]
      · simp [h1, h2, List.mem_cons]

lemma hourly_eq (store : List CountEvent) (d : Nat) (loc : String) :
    hourly store d loc = (List.finRange 24).map
      (fun h => (fmtHour h.val,
        (filteredRows store d loc).countP (fun r => decide (r.timestamp.hour = h)))) := by
  unfold hourly sqlGroupBy hourlyInit
  rw [foldl_dictSet]
  apply List.map_congr_left
  intro h _
  by_cases h1 : h ∈ ((filteredRows store d loc).map (fun r => r.timestamp.hour)).dedup
  · simp [h1]
  · have hz : (filteredRows store d loc).countP
        (fun r => decide (r.timestamp.hour = h)) = 0 := by
      rw [List.countP_eq_zero]
      intro r hr
      simp only [decide_eq_true_eq]
      intro he
      exact h1 (by rw [List.mem_dedup]; exact List.mem_map.mpr ⟨r, hr, he⟩)
    simp [h1, hz]

lemma countP_hour_partition (l : List CountEvent) :
    ((List.finRange 24).map
      (fun h => l.countP (fun r => decide (r.timestamp.hour = h)))).sum = l.length := by
  rw [← Fin.sum_univ_def]
  induction l with
  | nil => simp
  | cons r l ih =>
    have hstep : ∀ h : Fin 24, ((r :: l).countP (fun e => decide (e.timestamp.hour = h))) =
        (l.countP (fun e => decide (e.timestamp.hour = h))) +
          (if r.timestamp.hour = h then 1 else 0) := by
      intro h
      rw [List.countP_cons]
      by_cases he : r.timestamp.hour = h
      · simp [he]
      · simp [he]
    rw [Finset.sum_congr rfl (fun h _ => hstep h), Finset.sum_add_distrib, ih]
    simp [Finset.sum_ite_eq]

/-- C7: for every store, location and date, the hourly dict has exactly the
24 keys 00:00 through 23:00 in order, and its values sum to the number of
stored non-bus rows of that location and date. -/
theorem claim_C7_hourly :
    ∀ (store : List CountEvent) (date : Nat) (loc : String),
    ((hourly store date loc).map Prod.fst =
      ["00:00", "01:00", "02:00", "03:00", "04:00", "05:00", "06:00", "07:00",
       "08:00", "09:00", "10:00", "11:00", "12:00", "13:00", "14:00", "15:00",
       "16:00", "17:00", "18:00", "19:00", "20:00", "21:00", "22:00", "23:00"]) ∧
    (((hourly store date loc).map Prod.snd).sum = (filteredRows store date loc).length) := by
  intro store date loc
  constructor
  · rw [hourly_eq, List.map_map]
    have hfst : (Prod.fst ∘ fun h : Fin 24 => (fmtHour h.val,
        (filteredRows store date loc).countP (fun r => decide (r.timestamp.hour = h)))) =
        fun h : Fin 24 => fmtHour h.val := rfl
    rw [hfst]
    decide
  · rw [hourly_eq, List.map_map]
    have hsnd : (Prod.snd ∘ fun h : Fin 24 => (fmtHour h.val,
        (filteredRows store date loc).countP (fun r => decide (r.timestamp.hour = h)))) =
        fun h : Fin 24 => (filteredRows store date loc).countP
          (fun r => decide (r.timestamp.hour = h)) := rfl
    rw [hsnd]
    exact countP_hour_partition _

/-- C8: one poll of the location selector with a missing file, a raising
read, or whitespace-only content keeps the previously resolved value, and
resolves to the hardcoded default when that previous value is empty; the
modelled read is a total function, the source swallowing any read error. -/
theorem claim_C8_location_fallback :
    ∀ (prev : String) (f : LocFile),
    (f = .missing ∨ f = .readError ∨ (∃ s, f = .content s ∧ pyStrip s = "")) →
    read_current_location prev f =
      (if prev = "" then DEFAULT_CAMERA_LOCATION_ID else prev) := by
  intro prev f h
  rcases h with h | h | ⟨s, hf, hs⟩
  · subst h
    rfl
  · subst h
    rfl
  · subst hf
    unfold read_current_location
    dsimp only
    rw [hs]
    simp

theorem claim_C8_location_fallback_witness :
    (read_current_location "Kudi" .readError =
      (if "Kudi" = "" then DEFAULT_CAMERA_LOCATION_ID else "Kudi")) ∧
    (read_current_location "" (.content "  ") =
      (if "" = "" then DEFAULT_CAMERA_LOCATION_ID else "")) := by
  constructor
  · exact claim_C8_location_fallback "Kudi" .readError (Or.inr (Or.inl rfl))
  · exact claim_C8_location_fallback "" (.content "  ") (Or.inr (Or.inr ⟨"  ", rfl, rfl⟩))

/-- The LOCATIONS dict of app.py: id to display name. -/
def LOCATIONS : List (String × String) :=
  [("Kudi", "Kudi, Jodhpur"), ("Shastri Nagar", "Shastri Nagar, Jodhpur"),
    ("Ratanada", "Ratanada, Jodhpur")]

def locationKeys : List String := LOCATIONS.map Prod.fst

/-- What an HTTP route hands back: the 404 page or a 200 body. -/
inductive Response (α : Type) where
  | notFound
  | ok (body : α)

def Response.isNotFound {α : Type} : Response α → Bool
  | .notFound => true
  | .ok _ => false

/-- set_active_location of app.py, lines 57 to 66: 404 on an unknown id,
else write the id to the shared location file and redirect to its
dashboard; ok carries the written file content and the redirect target. -/
def set_active_location (loc : String) : Response (String × String) :=
  if loc ∉ locationKeys then .notFound else .ok (loc, loc)

/-- dashboard of app.py, lines 70 to 77: 404 on an unknown id, else render
with the display name. -/
def dashboard (loc : String) : Response String :=
  if loc ∉ locationKeys then .notFound else .ok ((LOCATIONS.lookup loc).getD "")

/-- The pieces of datetime.now() the summary endpoint reads. -/
structure NowClock where
  day : Nat
  hour : Fin 24

structure Summary where
  total_today : Nat
  total_week : Nat
  peak_hour : String
  current_hour : Nat

/-- summary_data of app.py, lines 81 to 122.  week_start is the Monday of
the current week, now.weekday() days before today (the day index is
Monday-epoch, so the weekday is day mod 7, and the SQL comparison of date
strings is the numeric comparison of day indexes).  peak_hour is an hour of
maximal count among the grouped hours of today (the tie order in the engine is
unspecified; the model keeps the first maximum in group order), and the
python default 00:00 when today has no rows. -/
def summary_data (store : List CountEvent) (loc : String) (now : NowClock) : Summary :=
  let today := now.day
  let week_start := now.day - now.day % 7
  { total_today := (filteredRows store today loc).length
    total_week := (store.filter (fun r => decide (week_start ≤ r.timestamp.day) &&
        decide (r.location_id = loc) && decide (r.vehicle_type ≠ "bus"))).length
    peak_hour :=
      match sqlGroupBy (fun r => r.timestamp.hour) (filteredRows store today loc) with
      | [] => "00:00"
      | g :: gs => fmtHour ((gs.foldl (fun best q => if best.2 < q.2 then q else best) g).1.val)
    current_hour := ((filteredRows store today loc).filter
      (fun r => decide (r.timestamp.hour = now.hour))).length }

/-- The summary route body performs no location-id validation. -/
def summary_route (loc : String) (store : List CountEvent) (now : NowClock) :
    Response Summary := .ok (summary_data store loc now)

/-- The vehicle-types route body performs no location-id validation. -/
def vehicle_types_route (loc : String) (store : List CountEvent) (today : Nat) :
    Response VehicleCounts := .ok (vehicle_types_data store today loc)

/-- The hourly route body performs no location-id validation. -/
def hourly_route (loc : String) (store : List CountEvent) (date : Nat) :
    Response (List (String × Nat)) := .ok (hourly store date loc)

/-- strftime %a of a day index under the Monday-epoch convention. -/
def weekdayName (d : Nat) : String :=
  ["Mon", "Tue", "Wed", "Thu", "Fri", "Sat", "Sun"].getD (d % 7) "Mon"

def insertSortedNat (x : Nat) : List Nat → List Nat
  | [] => [x]
  | y :: ys => if x ≤ y then x :: y :: ys else y :: insertSortedNat x ys

/-- sorted over Nat keys. -/
def sortNat (l : List Nat) : List Nat := l.foldr insertSortedNat []

/-- daily of app.py, lines 166 to 195: a 7-entry date dict for today back
to six days ago, the grouped counts of rows at most 7 days old assigned for
the dates present in the dict, then rebuilt keyed by weekday abbreviation
over the sorted dates. -/
def daily (store : List CountEvent) (loc : String) (today : Nat) :
    List (String × Nat) :=
  let daily_data := (List.range 7).map (fun i => (today - i, 0))
  let grouped := sqlGroupBy (fun r => r.timestamp.day)
    (store.filter (fun r => decide (today - 7 ≤ r.timestamp.day) &&
      decide (r.location_id = loc) && decide (r.vehicle_type ≠ "bus")))
  let dd := grouped.foldl
    (fun acc q =>
      if acc.any (fun e => decide (e.1 = q.1)) then
        acc.map (fun e => if e.1 = q.1 then (e.1, q.2) else e)
      else acc) daily_data
  let sorted_dates := sortNat (dd.map Prod.fst)
  sorted_dates.foldl
    (fun acc dt => dictSet acc (weekdayName dt) ((dd.lookup dt).getD 0)) []

/-- The daily route body performs no location-id validation. -/
def daily_route (loc : String) (store : List CountEvent) (today : Nat) :
    Response (List (String × Nat)) := .ok (daily store loc today)

/-- C9 counterexample: the summary endpoint checks no location id: for the
unknown id Nowhere it answers a normal payload, not the not-found page. -/
theorem claim_C9_counterexample :
    ("Nowhere" ∉ locationKeys) ∧
    (Response.isNotFound (summary_route "Nowhere" [] ⟨0, 0⟩) = false) := by
  constructor
  · decide
  · rfl

/-- C9 amended: an unknown location id is answered with not found by the
set-location and dashboard routes; the four api query endpoints perform no
location validation and answer ok, with zero-filled data, for every
location id. -/
theorem claim_C9_unknown_location :
    ∀ loc : String, loc ∉ locationKeys →
    (set_active_location loc = .notFound ∧
     dashboard loc = .notFound ∧
     (∀ (store : List CountEvent) (now : NowClock),
        (summary_route loc store now).isNotFound = false) ∧
     (∀ (store : List CountEvent) (today : Nat),
        (vehicle_types_route loc store today).isNotFound = false) ∧
     (∀ (store : List CountEvent) (date : Nat),
        (hourly_route loc store date).isNotFound = false) ∧
     (∀ (store : List CountEvent) (today : Nat),
        (daily_route loc store today).isNotFound = false)) := by
  intro loc h
  refine ⟨?_, ?_, fun store now => rfl, fun store today => rfl, fun store date => rfl,
    fun store today => rfl⟩
  · unfold set_active_location
    rw [if_pos h]
  · unfold dashboard
    rw [if_pos h]

theorem claim_C9_unknown_location_witness :
    (set_active_location "Nowhere" = .notFound) ∧
    ((summary_route "Nowhere" [] ⟨0, 0⟩).isNotFound = false) := by
  have h := claim_C9_unknown_location "Nowhere" (by decide)
  exact ⟨h.1, h.2.2.1 [] ⟨0, 0⟩⟩

def c10Frac : Detection := ⟨51, "car", 9/10, 0, 240, 10, 261⟩

def c10Int : Detection := ⟨52, "car", 9/10, 0, 240, 10, 262⟩

/-- C10: the zone test runs on the truncated center int of (y1+y2)/2: a box
whose exact midpoint 250.5 lies strictly inside the band from 250 to 290 is
nevertheless excluded, its truncated center 250 landing on the strict lower
boundary, while widening the box by one pixel, midpoint 251, gets it
counted. -/
theorem claim_C10_truncated_center :
    (∀ d : Detection, centerY d = pyInt ((d.y1 + d.y2) / 2)) ∧
    ((270:ℚ) - 20 < (c10Frac.y1 + c10Frac.y2) / 2 ∧
      (c10Frac.y1 + c10Frac.y2) / 2 < (270:ℚ) + 20) ∧
    ((processDetection 270 20 (startState .missing) (c10Frac, cTs)).events = []) ∧
    ((processDetection 270 20 (startState .missing) (c10Int, cTs)).events.length = 1) := by
  refine ⟨fun d => rfl, ?_, ?_, ?_⟩
  · norm_num [c10Frac]
  · norm_num [processDetection, centerY, pyInt, countedLabels, startState,
      read_current_location, DEFAULT_CAMERA_LOCATION_ID, bumpCounts, c10Frac, cTs]
  · norm_num [processDetection, centerY, pyInt, countedLabels, startState,
      read_current_location, DEFAULT_CAMERA_LOCATION_ID, bumpCounts, c10Int, cTs]
